import Mathlib

/-!
Verification of the seed-control-interface-service health-poller and
REST surface.  The data model, the health-check classification and the
trigger/listing endpoints are embedded shallowly; parts of the
repository that are only referenced from `src/services/views.py` and
`src/services/tests.py` (the models, serializers and celery tasks) are
modelled from the specification, as marked in their doc comments.
-/

namespace SeedControl

/-- A structured (JSON-like) value, as carried by a health-check body and
by a `Status.result` mapping. -/
inductive JVal : Type where
  | jnull : JVal
  | jbool : Bool → JVal
  | jnum : Int → JVal
  | jstr : String → JVal
  | jobj : List (String × JVal) → JVal

/-- A structured mapping from field name to value. -/
abbrev JObj := List (String × JVal)

/-- A registered service (Service model: name, url, token, `up` flag and
audit fields). -/
structure Service where
  id : Nat
  name : String
  url : String
  token : String
  up : Bool
  created_by : String
  updated_by : String
  created_at : Nat
  updated_at : Nat

/-- One recorded poll outcome (Status model). -/
structure Status where
  id : Nat
  service_id : Nat
  up : Bool
  result : JObj
  created_by : String
  updated_by : String
  created_at : Nat

/-- A per-user access token for a service (UserServiceToken model). -/
structure UserServiceToken where
  id : Nat
  service_id : Nat
  user_id : Nat
  email : String
  token : String

/-- The persistent state: the service registry, the status log and the
user-service-token table, with fresh-id counters and a logical clock for
`created_at` timestamps. -/
structure DB where
  services : List Service
  statuses : List Status
  tokens : List UserServiceToken
  nextServiceId : Nat
  nextStatusId : Nat
  clock : Nat

/-- What the outbound health-check call produced: either a transport
failure, or an HTTP response with a status code and (when the body could
be parsed as structured data) a parsed body. -/
inductive UpstreamOutcome : Type where
  | transportFailure : UpstreamOutcome
  | httpResponse (httpStatus : Nat) (body : Option JObj) : UpstreamOutcome

/-- Whether an HTTP status code is a success (2xx) code. -/
def is2xx (n : Nat) : Bool := 200 ≤ n && n < 300

/-- The fixed error payload recorded when the upstream response could not
be interpreted. -/
def errorResult : JObj := [("error", JVal.jstr "No parseable response from service")]

/-- Read the `up` field of a parsed body: a boolean value is taken as is,
a missing or non-boolean field defaults to `false`. -/
def body_up (body : JObj) : Bool :=
  match body.lookup "up" with
  | some (JVal.jbool b) => b
  | _ => false

/-- Read the `result` field of a parsed body: a structured mapping is
passed through, a missing or non-mapping field defaults to the empty
mapping. -/
def body_result (body : JObj) : JObj :=
  match body.lookup "result" with
  | some (JVal.jobj m) => m
  | _ => []

/-- An outcome is unparseable when the call failed at the transport
level, the status code was not 2xx, or the body was not structured
data. -/
def isUnparseable : UpstreamOutcome → Bool
  | UpstreamOutcome.transportFailure => true
  | UpstreamOutcome.httpResponse st body => !is2xx st || body.isNone

/-- Modelled from the spec: the response-interpretation step of the
Health Poller (`poll_service` in `services/tasks.py`, absent from
`src/`).  An unreachable endpoint, non-2xx status or unparseable body is
classified DOWN with the fixed error payload; a parseable body yields
its `up` field (absent-safe) and its `result` mapping (absent-safe). -/
def classify : UpstreamOutcome → Bool × JObj
  | UpstreamOutcome.transportFailure => (false, errorResult)
  | UpstreamOutcome.httpResponse st body =>
    if is2xx st then
      match body with
      | none => (false, errorResult)
      | some obj => (body_up obj, body_result obj)
    else (false, errorResult)

/-- The audit identity recorded by asynchronous tasks. -/
def systemUser : String := "system"

/-- Look a service up in the registry by id. -/
def findService (db : DB) (sid : Nat) : Option Service :=
  db.services.find? (fun s => s.id == sid)

/-- Modelled from the spec: the Health Poller task (`poll_service` in
`services/tasks.py`, absent from `src/`).  Looks the service up (a
missing id is a fatal task failure, returned as `none`), classifies the
upstream outcome, overwrites the service's `up` flag (touching only its
audit fields besides), appends exactly one Status row, and returns the
completion message. -/
def poll_service (db : DB) (sid : Nat) (o : UpstreamOutcome) :
    Option (DB × String) :=
  match findService db sid with
  | none => none
  | some service =>
    let c := classify o
    let services' := db.services.map (fun s =>
      if s.id == sid then
        { s with up := c.1, updated_by := systemUser, updated_at := db.clock }
      else s)
    let st : Status :=
      { id := db.nextStatusId, service_id := sid, up := c.1, result := c.2,
        created_by := systemUser, updated_by := systemUser,
        created_at := db.clock }
    let db' : DB :=
      { db with
        services := services'
        statuses := db.statuses ++ [st]
        nextStatusId := db.nextStatusId + 1
        clock := db.clock + 1 }
    some (db', "Completed healthcheck for <" ++ service.name ++ ">")

/-- A task queued for the worker pool by the Dispatch Trigger: one
token-issuance task (`get_user_token`) per service. -/
structure QueuedTask where
  service_id : Nat
  user_id : Nat
  email : String

/-- Modelled from the spec: validation of the Dispatch Trigger body by
`UserTokenRequestSerializer` (`services/serializers.py`, absent from
`src/`): the body must carry a `user_id` field holding an unsigned
integer and an `email` field holding a string. -/
def validTriggerBody (body : JObj) : Option (Nat × String) :=
  match body.lookup "user_id", body.lookup "email" with
  | some (JVal.jnum n), some (JVal.jstr e) =>
    if 0 ≤ n then some (n.toNat, e) else none
  | _, _ => none

/-- The synchronous outcome of a Dispatch Trigger request: the task
queue after the request, the HTTP status code, and the response body
(`user_service_token_initiated` flag and service count) when the
request was accepted. -/
structure TriggerOutcome where
  queue : List QueuedTask
  httpStatus : Nat
  initiated : Option Bool
  count : Option Nat

/-- `UserServiceTokenTriggerView.post` (`services/views.py`): validate
the body (an invalid body is rejected with a client error before any
task is enqueued), then enqueue one `get_user_token` task per
registered service and answer 201 with the service count. -/
def userServiceTokenTrigger (db : DB) (queue : List QueuedTask)
    (body : JObj) : TriggerOutcome :=
  match validTriggerBody body with
  | none =>
    { queue := queue, httpStatus := 400, initiated := none, count := none }
  | some (uid, email) =>
    let tasks := db.services.map (fun s =>
      { service_id := s.id, user_id := uid, email := email : QueuedTask })
    { queue := queue ++ tasks, httpStatus := 201, initiated := some true,
      count := some db.services.length }

/-- A Service-creation request body: name, url, token, and an optional
caller-supplied `up` value. -/
structure ServiceCreateRequest where
  name : String
  url : String
  token : String
  up : Option Bool

/-- Modelled from the spec: Service creation through
`ServiceViewSet.perform_create` (`services/views.py`) with
`ServiceSerializer` and the Service model defaults
(`services/serializers.py` and `services/models.py`, absent from
`src/`): the `up` field is server-assigned to its default `false`
regardless of caller input, and the audit fields record the requesting
user. -/
def createService (db : DB) (req : ServiceCreateRequest)
    (requestUser : String) : DB × Service :=
  let s : Service :=
    { id := db.nextServiceId, name := req.name, url := req.url,
      token := req.token, up := false, created_by := requestUser,
      updated_by := requestUser, created_at := db.clock,
      updated_at := db.clock }
  let db' : DB :=
    { db with
      services := db.services ++ [s]
      nextServiceId := db.nextServiceId + 1
      clock := db.clock + 1 }
  (db', s)

/-- An HTTP method, as dispatched by the REST layer. -/
inductive Method : Type where
  | get : Method
  | post : Method
  | put : Method
  | patch : Method
  | delete : Method
deriving DecidableEq

/-- Whether a Status row passes the optional `service` and `up` query
filters of the Status listing. -/
def statusMatches (fService : Option Nat) (fUp : Option Bool)
    (st : Status) : Bool :=
  (match fService with
   | none => true
   | some sid => st.service_id == sid) &&
  (match fUp with
   | none => true
   | some b => st.up == b)

/-- The ordering relation used by the Status listing when `created_at`
ordering is requested. -/
def statusOrder (a b : Status) : Prop := a.created_at ≤ b.created_at

instance : DecidableRel statusOrder := fun a b => Nat.decLe a.created_at b.created_at

instance : IsTotal Status statusOrder := ⟨fun a b => Nat.le_total a.created_at b.created_at⟩

instance : IsTrans Status statusOrder := ⟨fun _ _ _ h h' => Nat.le_trans h h'⟩

/-- The synchronous outcome of a Status listing request: HTTP status
code and returned rows. -/
structure StatusPage where
  httpStatus : Nat
  results : List Status

/-- `StatusViewSet` (`services/views.py`): a read-only surface over the
Status log.  GET lists the rows, filterable by `service` and `up` and
orderable by `created_at`; any write method (creation included) is
rejected with 405 and leaves the database untouched. -/
def statusEndpoint (db : DB) (m : Method) (fService : Option Nat)
    (fUp : Option Bool) (orderByCreated : Bool) : StatusPage × DB :=
  match m with
  | Method.get =>
    let rows := db.statuses.filter (statusMatches fService fUp)
    ({ httpStatus := 200,
       results := if orderByCreated then List.insertionSort statusOrder rows else rows },
     db)
  | _ => ({ httpStatus := 405, results := [] }, db)

/-- Whether a UserServiceToken row passes the optional `service`,
`user_id` and `email` query filters of the token listing. -/
def tokenMatches (fService : Option Nat) (fUser : Option Nat)
    (fEmail : Option String) (t : UserServiceToken) : Bool :=
  (match fService with
   | none => true
   | some sid => t.service_id == sid) &&
  (match fUser with
   | none => true
   | some u => t.user_id == u) &&
  (match fEmail with
   | none => true
   | some e => t.email == e)

/-- The synchronous outcome of a UserServiceToken listing request. -/
structure TokenPage where
  httpStatus : Nat
  results : List UserServiceToken

/-- `UserServiceTokenViewSet` (`services/views.py`): a read-only surface
over the stored tokens.  GET lists the rows, filterable by `service`,
`user_id` and `email`; any write method is rejected with 405 and
leaves the database untouched. -/
def userServiceTokenEndpoint (db : DB) (m : Method) (fService : Option Nat)
    (fUser : Option Nat) (fEmail : Option String) : TokenPage × DB :=
  match m with
  | Method.get =>
    ({ httpStatus := 200,
       results := db.tokens.filter (tokenMatches fService fUser fEmail) }, db)
  | _ => ({ httpStatus := 405, results := [] }, db)

/-! Concrete fixtures mirroring the test suite's primary service. -/

/-- The registered test service of the test suite. -/
def testService : Service :=
  { id := 1, name := "Test Service", url := "http://example.org",
    token := "token-1", up := true, created_by := "testuser",
    updated_by := "testuser", created_at := 0, updated_at := 0 }

/-- A database holding exactly the test service. -/
def testDB : DB :=
  { services := [testService], statuses := [], tokens := [],
    nextServiceId := 2, nextStatusId := 1, clock := 1 }

/-- The parsed health body of the poll-up scenario. -/
def healthUpBody : JObj :=
  [("up", JVal.jbool true),
   ("result", JVal.jobj [("database", JVal.jstr "Response in <0.1> seconds")])]

/-! Helper lemmas on classification. -/

theorem classify_parsed (st : Nat) (body : JObj) (h2 : is2xx st = true) :
    classify (UpstreamOutcome.httpResponse st (some body)) =
      (body_up body, body_result body) := by
  simp [classify, h2]

theorem classify_unparseable (o : UpstreamOutcome) (h : isUnparseable o = true) :
    classify o = (false, errorResult) := by
  cases o with
  | transportFailure => rfl
  | httpResponse st body =>
    cases hx : is2xx st with
    | false => simp [classify, hx]
    | true =>
      cases body with
      | some obj => simp [isUnparseable, hx] at h
      | none => simp [classify, hx]

/-- C1: for a service whose health endpoint returns a parseable
structured body, one poll sets the service's `up` flag and the new
Status row's `up` field to the body's `up` value, and the Status row's
`result` to the body's `result` mapping exactly, for both `up` values. -/
theorem poll_parseable_sets_up_and_result
    (db : DB) (sid hstat : Nat) (body : JObj) (b : Bool) (m : JObj)
    (service : Service)
    (hfind : findService db sid = some service)
    (h2 : is2xx hstat = true)
    (hup : body.lookup "up" = some (JVal.jbool b))
    (hres : body.lookup "result" = some (JVal.jobj m)) :
    ∃ db' msg,
      poll_service db sid (UpstreamOutcome.httpResponse hstat (some body)) =
        some (db', msg) ∧
      (∀ s' ∈ db'.services, s'.id = sid → s'.up = b) ∧
      ∃ row, db'.statuses = db.statuses ++ [row] ∧
        row.up = b ∧ row.result = m ∧ row.service_id = sid := by
  have hub : body_up body = b := by simp [body_up, hup]
  have hrb : body_result body = m := by simp [body_result, hres]
  have hc : classify (UpstreamOutcome.httpResponse hstat (some body)) = (b, m) := by
    rw [classify_parsed _ _ h2, hub, hrb]
  simp only [poll_service, hfind, hc]
  refine ⟨_, _, rfl, ?_, ⟨_, rfl, rfl, rfl, rfl⟩⟩
  intro s' hs' hid
  rcases List.mem_map.1 hs' with ⟨s, _, rfl⟩
  by_cases hb : s.id = sid
  · simp [hb]
  · simp [hb] at hid

/-- C1 witness: the poll-up scenario of the test suite, evaluated
concretely. -/
theorem poll_parseable_sets_up_and_result_witness :
    findService testDB 1 = some testService ∧
    is2xx 200 = true ∧
    healthUpBody.lookup "up" = some (JVal.jbool true) ∧
    healthUpBody.lookup "result" =
      some (JVal.jobj [("database", JVal.jstr "Response in <0.1> seconds")]) ∧
    (∃ db' msg,
      poll_service testDB 1 (UpstreamOutcome.httpResponse 200 (some healthUpBody)) =
        some (db', msg) ∧
      (∀ s' ∈ db'.services, s'.id = 1 → s'.up = true) ∧
      ∃ row, db'.statuses = testDB.statuses ++ [row] ∧
        row.up = true ∧
        row.result = [("database", JVal.jstr "Response in <0.1> seconds")] ∧
        row.service_id = 1) :=
  ⟨rfl, rfl, rfl, rfl,
    poll_parseable_sets_up_and_result testDB 1 200 healthUpBody true
      [("database", JVal.jstr "Response in <0.1> seconds")] testService
      rfl rfl rfl rfl⟩

/-- C2: for a service whose health endpoint is unreachable, returns a
non-2xx status or returns an unparseable body, one poll sets the
service's `up` flag to false and appends exactly one Status row whose
result is the fixed error payload. -/
theorem poll_unparseable_marks_down
    (db : DB) (sid : Nat) (o : UpstreamOutcome) (service : Service)
    (hfind : findService db sid = some service)
    (hbad : isUnparseable o = true) :
    ∃ db' msg,
      poll_service db sid o = some (db', msg) ∧
      (∀ s' ∈ db'.services, s'.id = sid → s'.up = false) ∧
      ∃ row, db'.statuses = db.statuses ++ [row] ∧
        row.up = false ∧
        row.result = [("error", JVal.jstr "No parseable response from service")] ∧
        row.service_id = sid := by
  have hc : classify o = (false, errorResult) := classify_unparseable o hbad
  simp only [poll_service, hfind, hc]
  refine ⟨_, _, rfl, ?_, ⟨_, rfl, rfl, rfl, rfl⟩⟩
  intro s' hs' hid
  rcases List.mem_map.1 hs' with ⟨s, _, rfl⟩
  by_cases hb : s.id = sid
  · simp [hb]
  · simp [hb] at hid

/-- C2 witness: the 404/HTML scenario of the test suite, evaluated
concretely. -/
theorem poll_unparseable_marks_down_witness :
    findService testDB 1 = some testService ∧
    isUnparseable (UpstreamOutcome.httpResponse 404 none) = true ∧
    (∃ db' msg,
      poll_service testDB 1 (UpstreamOutcome.httpResponse 404 none) =
        some (db', msg) ∧
      (∀ s' ∈ db'.services, s'.id = 1 → s'.up = false) ∧
      ∃ row, db'.statuses = testDB.statuses ++ [row] ∧
        row.up = false ∧
        row.result = [("error", JVal.jstr "No parseable response from service")] ∧
        row.service_id = 1) :=
  ⟨rfl, rfl,
    poll_unparseable_marks_down testDB 1 (UpstreamOutcome.httpResponse 404 none)
      testService rfl rfl⟩

/-- C3: every poll of an existing service, on every outcome branch,
appends exactly one Status row: the new log is the old log with a single
row appended (existing rows untouched), the total count grows by one,
and the per-service count grows by one. -/
theorem poll_appends_exactly_one_status
    (db : DB) (sid : Nat) (o : UpstreamOutcome) (service : Service)
    (hfind : findService db sid = some service) :
    ∃ db' msg row,
      poll_service db sid o = some (db', msg) ∧
      db'.statuses = db.statuses ++ [row] ∧
      row.service_id = sid ∧
      db'.statuses.length = db.statuses.length + 1 ∧
      (db'.statuses.filter (fun st => st.service_id == sid)).length =
        (db.statuses.filter (fun st => st.service_id == sid)).length + 1 := by
  simp only [poll_service, hfind]
  refine ⟨_, _, _, rfl, rfl, rfl, ?_, ?_⟩
  · simp
  · simp [List.filter_append]

/-- C3 witness: a transport-failure poll against the concrete database,
showing the single appended row. -/
theorem poll_appends_exactly_one_status_witness :
    findService testDB 1 = some testService ∧
    (∃ db' msg row,
      poll_service testDB 1 UpstreamOutcome.transportFailure = some (db', msg) ∧
      db'.statuses = testDB.statuses ++ [row] ∧
      row.service_id = 1 ∧
      db'.statuses.length = testDB.statuses.length + 1 ∧
      (db'.statuses.filter (fun st => st.service_id == 1)).length =
        (testDB.statuses.filter (fun st => st.service_id == 1)).length + 1) :=
  ⟨rfl, poll_appends_exactly_one_status testDB 1 UpstreamOutcome.transportFailure
    testService rfl⟩

/-- C4: a poll of a service that exists in the registry completes
successfully with the message "Completed healthcheck for <name>"
whatever the upstream outcome (network and parse errors included);
a service id missing from the registry is the only true task failure. -/
theorem poll_task_semantics (db : DB) (sid : Nat) (o : UpstreamOutcome) :
    (∀ service, findService db sid = some service →
      ∃ db', poll_service db sid o =
        some (db', "Completed healthcheck for <" ++ service.name ++ ">")) ∧
    (findService db sid = none → poll_service db sid o = none) := by
  constructor
  · intro service h
    simp only [poll_service, h]
    exact ⟨_, rfl⟩
  · intro h
    simp only [poll_service, h]

/-- C4 witness: a failing upstream call still completes the task with
its completion message for the concrete test service. -/
theorem poll_task_semantics_witness :
    findService testDB 1 = some testService ∧
    (∃ db', poll_service testDB 1 UpstreamOutcome.transportFailure =
      some (db', "Completed healthcheck for <" ++ testService.name ++ ">")) :=
  ⟨rfl, (poll_task_semantics testDB 1 UpstreamOutcome.transportFailure).1
    testService rfl⟩

/-- C5: on a valid trigger body, the Dispatch Trigger enqueues exactly
one token-issuer task per registered service and synchronously answers
201 with `user_service_token_initiated = true` and `count` equal to the
number of registered services, independent of task completion (the
queued tasks are not executed by the request). -/
theorem trigger_enqueues_one_task_per_service
    (db : DB) (queue : List QueuedTask) (body : JObj) (uid : Nat) (email : String)
    (hvalid : validTriggerBody body = some (uid, email)) :
    (userServiceTokenTrigger db queue body).queue =
      queue ++ db.services.map (fun s =>
        { service_id := s.id, user_id := uid, email := email : QueuedTask }) ∧
    (userServiceTokenTrigger db queue body).queue.length =
      queue.length + db.services.length ∧
    (userServiceTokenTrigger db queue body).httpStatus = 201 ∧
    (userServiceTokenTrigger db queue body).initiated = some true ∧
    (userServiceTokenTrigger db queue body).count = some db.services.length := by
  simp [userServiceTokenTrigger, hvalid]

/-- A well-formed trigger body, as posted by an administrator. -/
def triggerBody : JObj :=
  [("user_id", JVal.jnum 7), ("email", JVal.jstr "operator@example.org")]

/-- C5 witness: a valid trigger body against the one-service database. -/
theorem trigger_enqueues_one_task_per_service_witness :
    validTriggerBody triggerBody = some (7, "operator@example.org") ∧
    ((userServiceTokenTrigger testDB [] triggerBody).queue =
      [] ++ testDB.services.map (fun s =>
        { service_id := s.id, user_id := 7,
          email := "operator@example.org" : QueuedTask }) ∧
     (userServiceTokenTrigger testDB [] triggerBody).queue.length =
       ([] : List QueuedTask).length + testDB.services.length ∧
     (userServiceTokenTrigger testDB [] triggerBody).httpStatus = 201 ∧
     (userServiceTokenTrigger testDB [] triggerBody).initiated = some true ∧
     (userServiceTokenTrigger testDB [] triggerBody).count =
       some testDB.services.length) :=
  ⟨rfl, trigger_enqueues_one_task_per_service testDB [] triggerBody 7
    "operator@example.org" rfl⟩

/-- C6: a Service created through the registration interface always has
`up = false` — the server-assigned default overrides any caller-supplied
`up` value — while the caller's name, url and token are stored and the
record is appended to the registry. -/
theorem createService_forces_up_false
    (db : DB) (req : ServiceCreateRequest) (u : String) :
    (createService db req u).2.up = false ∧
    (createService db req u).1.services =
      db.services ++ [(createService db req u).2] ∧
    (createService db req u).2.name = req.name ∧
    (createService db req u).2.url = req.url ∧
    (createService db req u).2.token = req.token ∧
    (createService db req u).2.created_by = u :=
  ⟨rfl, rfl, rfl, rfl, rfl, rfl⟩

/-- C8: a malformed trigger body is rejected synchronously with a client
error and the task queue is left exactly as it was — zero tasks are
enqueued. -/
theorem trigger_invalid_enqueues_nothing
    (db : DB) (queue : List QueuedTask) (body : JObj)
    (hinvalid : validTriggerBody body = none) :
    (userServiceTokenTrigger db queue body).queue = queue ∧
    (userServiceTokenTrigger db queue body).httpStatus = 400 ∧
    (userServiceTokenTrigger db queue body).initiated = none ∧
    (userServiceTokenTrigger db queue body).count = none := by
  simp [userServiceTokenTrigger, hinvalid]

/-- A malformed trigger body: `user_id` holds a string, not an integer. -/
def badTriggerBody : JObj :=
  [("user_id", JVal.jstr "seven"), ("email", JVal.jstr "operator@example.org")]

/-- C8 witness: the malformed body is rejected and the queue untouched. -/
theorem trigger_invalid_enqueues_nothing_witness :
    validTriggerBody badTriggerBody = none ∧
    ((userServiceTokenTrigger testDB [] badTriggerBody).queue = [] ∧
     (userServiceTokenTrigger testDB [] badTriggerBody).httpStatus = 400 ∧
     (userServiceTokenTrigger testDB [] badTriggerBody).initiated = none ∧
     (userServiceTokenTrigger testDB [] badTriggerBody).count = none) :=
  ⟨rfl, trigger_invalid_enqueues_nothing testDB [] badTriggerBody rfl⟩

/-- C9: one poll rewrites only the target service's `up` flag and audit
fields: every service keeps its id, name, url, token, created_by and
created_at, every service other than the target is untouched entirely,
and the token table is unchanged. -/
theorem poll_frame_effect
    (db : DB) (sid : Nat) (o : UpstreamOutcome) (service : Service)
    (hfind : findService db sid = some service) :
    ∃ db' msg,
      poll_service db sid o = some (db', msg) ∧
      db'.tokens = db.tokens ∧
      List.Forall₂ (fun s s' : Service =>
        s.id = s'.id ∧ s.name = s'.name ∧ s.url = s'.url ∧
        s.token = s'.token ∧ s.created_by = s'.created_by ∧
        s.created_at = s'.created_at ∧ (s.id ≠ sid → s' = s))
        db.services db'.services := by
  have key : ∀ l : List Service,
      List.Forall₂ (fun s s' : Service =>
        s.id = s'.id ∧ s.name = s'.name ∧ s.url = s'.url ∧
        s.token = s'.token ∧ s.created_by = s'.created_by ∧
        s.created_at = s'.created_at ∧ (s.id ≠ sid → s' = s))
        l (l.map (fun s =>
          if s.id == sid then
            { s with
              up := (classify o).1
              updated_by := systemUser
              updated_at := db.clock }
          else s)) := by
    intro l
    induction l with
    | nil => exact List.Forall₂.nil
    | cons a t ih =>
      refine List.Forall₂.cons ?_ ih
      by_cases hb : a.id = sid
      · simp [hb]
      · simp [hb]
  simp only [poll_service, hfind]
  exact ⟨_, _, rfl, rfl, key db.services⟩

/-- C9 witness: the frame property evaluated at the concrete database
and a transport failure. -/
theorem poll_frame_effect_witness :
    findService testDB 1 = some testService ∧
    (∃ db' msg,
      poll_service testDB 1 UpstreamOutcome.transportFailure = some (db', msg) ∧
      db'.tokens = testDB.tokens ∧
      List.Forall₂ (fun s s' : Service =>
        s.id = s'.id ∧ s.name = s'.name ∧ s.url = s'.url ∧
        s.token = s'.token ∧ s.created_by = s'.created_by ∧
        s.created_at = s'.created_at ∧ (s.id ≠ 1 → s' = s))
        testDB.services db'.services) :=
  ⟨rfl, poll_frame_effect testDB 1 UpstreamOutcome.transportFailure testService rfl⟩

/-- A logged status for the first service. -/
def statusA : Status :=
  { id := 1, service_id := 1, up := true, result := [],
    created_by := "system", updated_by := "system", created_at := 5 }

/-- A logged status for a second service, older than `statusA`. -/
def statusB : Status :=
  { id := 2, service_id := 2, up := false, result := [],
    created_by := "system", updated_by := "system", created_at := 3 }

/-- A database with two logged statuses. -/
def statusDB : DB :=
  { services := [testService], statuses := [statusA, statusB], tokens := [],
    nextServiceId := 2, nextStatusId := 3, clock := 6 }

/-- C7: the Status surface is read-only — any write method (creation
included) is answered with 405 and leaves the database unchanged — while
GET answers 200, leaves the database unchanged, returns exactly the rows
passing the `service` and `up` filters, and sorts them by `created_at`
when ordering is requested. -/
theorem status_surface_readonly_and_filterable
    (db : DB) (m : Method) (fS : Option Nat) (fU : Option Bool) (ord : Bool)
    (hm : m ≠ Method.get) :
    ((statusEndpoint db m fS fU ord).1.httpStatus = 405 ∧
     (statusEndpoint db m fS fU ord).2 = db) ∧
    ((statusEndpoint db Method.get fS fU ord).1.httpStatus = 200 ∧
     (statusEndpoint db Method.get fS fU ord).2 = db ∧
     (∀ st, st ∈ (statusEndpoint db Method.get fS fU ord).1.results ↔
        (st ∈ db.statuses ∧ statusMatches fS fU st = true)) ∧
     (ord = true → List.Sorted statusOrder
        (statusEndpoint db Method.get fS fU ord).1.results)) := by
  refine ⟨?_, rfl, rfl, ?_, ?_⟩
  · cases m with
    | get => exact absurd rfl hm
    | post => exact ⟨rfl, rfl⟩
    | put => exact ⟨rfl, rfl⟩
    | patch => exact ⟨rfl, rfl⟩
    | delete => exact ⟨rfl, rfl⟩
  · intro st
    cases ord with
    | false => simp [statusEndpoint, List.mem_filter]
    | true =>
      have hperm := List.perm_insertionSort statusOrder
        (db.statuses.filter (statusMatches fS fU))
      simp [statusEndpoint, hperm.mem_iff, List.mem_filter]
  · intro h
    subst h
    show List.Sorted statusOrder
      (List.insertionSort statusOrder (db.statuses.filter (statusMatches fS fU)))
    exact List.sorted_insertionSort statusOrder _

/-- C7 witness: a POST against the concrete status database is refused
with 405 and the filters behave as stated. -/
theorem status_surface_readonly_and_filterable_witness :
    Method.post ≠ Method.get ∧
    (((statusEndpoint statusDB Method.post (some 2) none true).1.httpStatus = 405 ∧
      (statusEndpoint statusDB Method.post (some 2) none true).2 = statusDB) ∧
     ((statusEndpoint statusDB Method.get (some 2) none true).1.httpStatus = 200 ∧
      (statusEndpoint statusDB Method.get (some 2) none true).2 = statusDB ∧
      (∀ st, st ∈ (statusEndpoint statusDB Method.get (some 2) none true).1.results ↔
         (st ∈ statusDB.statuses ∧ statusMatches (some 2) none st = true)) ∧
      (true = true → List.Sorted statusOrder
         (statusEndpoint statusDB Method.get (some 2) none true).1.results))) :=
  ⟨by decide,
    status_surface_readonly_and_filterable statusDB Method.post (some 2) none true
      (by decide)⟩

/-- A token for user 1 on the first service. -/
def tokenA : UserServiceToken :=
  { id := 1, service_id := 1, user_id := 1, email := "1@example.org",
    token := "ta" }

/-- A token for user 1 on a second service. -/
def tokenB : UserServiceToken :=
  { id := 2, service_id := 2, user_id := 1, email := "1@example.org",
    token := "tb" }

/-- A token for user 2 on the first service. -/
def tokenC : UserServiceToken :=
  { id := 3, service_id := 1, user_id := 2, email := "2@example.org",
    token := "tc" }

/-- A database with three stored user-service tokens. -/
def tokenDB : DB :=
  { services := [testService], statuses := [], tokens := [tokenA, tokenB, tokenC],
    nextServiceId := 2, nextStatusId := 1, clock := 0 }

/-- C10: the UserServiceToken surface is read-only — any write method is
answered with 405 and leaves the stored set unchanged — and a GET
filtered by `user_id = u` (resp. `email = e`) returns exactly the tokens
whose user_id equals u (resp. whose email equals e), leaving the stored
set unchanged. -/
theorem userServiceToken_surface_readonly_and_filterable
    (db : DB) (m : Method) (u : Nat) (e : String)
    (fS fU : Option Nat) (fE : Option String)
    (hm : m ≠ Method.get) :
    ((userServiceTokenEndpoint db m fS fU fE).1.httpStatus = 405 ∧
     (userServiceTokenEndpoint db m fS fU fE).2 = db) ∧
    ((userServiceTokenEndpoint db Method.get none (some u) none).2 = db ∧
     (∀ t, t ∈ (userServiceTokenEndpoint db Method.get none (some u) none).1.results ↔
        (t ∈ db.tokens ∧ t.user_id = u))) ∧
    ((userServiceTokenEndpoint db Method.get none none (some e)).2 = db ∧
     (∀ t, t ∈ (userServiceTokenEndpoint db Method.get none none (some e)).1.results ↔
        (t ∈ db.tokens ∧ t.email = e))) := by
  refine ⟨?_, ⟨rfl, ?_⟩, ⟨rfl, ?_⟩⟩
  · cases m with
    | get => exact absurd rfl hm
    | post => exact ⟨rfl, rfl⟩
    | put => exact ⟨rfl, rfl⟩
    | patch => exact ⟨rfl, rfl⟩
    | delete => exact ⟨rfl, rfl⟩
  · intro t
    simp [userServiceTokenEndpoint, List.mem_filter, tokenMatches]
  · intro t
    simp [userServiceTokenEndpoint, List.mem_filter, tokenMatches]

/-- C10 witness: the token filters evaluated on the concrete three-token
database, with a POST refused. -/
theorem userServiceToken_surface_readonly_and_filterable_witness :
    Method.post ≠ Method.get ∧
    (((userServiceTokenEndpoint tokenDB Method.post none none none).1.httpStatus = 405 ∧
      (userServiceTokenEndpoint tokenDB Method.post none none none).2 = tokenDB) ∧
     ((userServiceTokenEndpoint tokenDB Method.get none (some 1) none).2 = tokenDB ∧
      (∀ t, t ∈ (userServiceTokenEndpoint tokenDB Method.get none (some 1) none).1.results ↔
         (t ∈ tokenDB.tokens ∧ t.user_id = 1))) ∧
     ((userServiceTokenEndpoint tokenDB Method.get none none (some "2@example.org")).2 = tokenDB ∧
      (∀ t, t ∈ (userServiceTokenEndpoint tokenDB Method.get none none (some "2@example.org")).1.results ↔
         (t ∈ tokenDB.tokens ∧ t.email = "2@example.org")))) :=
  ⟨by decide,
    userServiceToken_surface_readonly_and_filterable tokenDB Method.post 1
      "2@example.org" none none none (by decide)⟩

end SeedControl
